import Mathlib

/-!
Verification development for the `custom_components/coingecko` Home Assistant
integration: a shallow embedding of the constants module, the data-update
coordinator (`__init__.py`), and the sensor platform (`sensor.py`), with
theorems settling the specification claims about them.

Conventions of the embedding:
* Python strings are Lean `String`s. Python slices and case maps act on
  code-point sequences, so `pair[:3]`/`pair[3:]`/`.upper()`/`.lower()` are
  embedded as `List.take`/`List.drop`/character maps over `String.data`
  (`pyTake`, `pyDrop`, `pyUpper`, `pyLower`); the case maps implement the
  ASCII case rules, which agree with Python on the alphabetic pair strings
  the config flow admits.
* The upstream JSON response (shape
  `{ asset_id: { key: number-or-null, ... }, ... }`) is an association list
  of association lists; a JSON `null` value is `Option.none`. Python
  `dict.get(k)` returning `None` both for a missing key and for a stored
  `None` is `pyGet`.
* Python numbers are modelled as `ℚ`.
* Fallible coordinator code returns `Except UpdateError`; every `raise
  UpdateFailed(...)` in the source is an `UpdateError` constructor, so a
  returned `Except.error` is exactly the "cycle failed" signal and nothing
  escapes as an uncaught fault.
-/

namespace CoinGecko

/-! ## The constants module and the import statements

`const.py` consists of seven module-level assignments; `__init__.py` and
`config_flow.py` each open with a `from .const import (...)` statement.
We embed the name lists verbatim so import resolution can be checked. -/

/-- The module-level names assigned in `const.py`. -/
def constDefinedNames : List String :=
  ["DOMAIN", "DEFAULT_SCAN_INTERVAL", "API_BASE_URL", "SIMPLE_PRICE_ENDPOINT",
   "CONF_SCAN_INTERVAL", "CONF_COIN_ID", "CONF_CURRENCY"]

/-- The names `__init__.py` imports in its `from .const import (...)` statement. -/
def initConstImportNames : List String :=
  ["API_BASE_URL", "CONF_SCAN_INTERVAL", "CONF_TRADING_PAIRS", "COIN_MAPPINGS",
   "DEFAULT_SCAN_INTERVAL", "DOMAIN", "SIMPLE_PRICE_ENDPOINT", "SUPPORTED_CURRENCIES"]

/-- The names `config_flow.py` imports in its `from .const import (...)` statement. -/
def configFlowConstImportNames : List String :=
  ["CONF_SCAN_INTERVAL", "CONF_TRADING_PAIRS", "DEFAULT_SCAN_INTERVAL", "DOMAIN"]

/-- The names `sensor.py` imports in its `from .const import ...` statement. -/
def sensorConstImportNames : List String :=
  ["DOMAIN", "CONF_COIN_ID", "CONF_CURRENCY"]

/-! ## Python string primitives -/

/-- ASCII lower-casing of one character (`str.lower()` on the alphabetic
input admitted by the config flow). -/
def pyLowerChar (c : Char) : Char :=
  if 65 ≤ c.toNat ∧ c.toNat ≤ 90 then Char.ofNat (c.toNat + 32) else c

/-- ASCII upper-casing of one character (`str.upper()` on the alphabetic
input admitted by the config flow). -/
def pyUpperChar (c : Char) : Char :=
  if 97 ≤ c.toNat ∧ c.toNat ≤ 122 then Char.ofNat (c.toNat - 32) else c

/-- Python `s.lower()`. -/
def pyLower (s : String) : String := String.mk (s.data.map pyLowerChar)

/-- Python `s.upper()`. -/
def pyUpper (s : String) : String := String.mk (s.data.map pyUpperChar)

/-- Python `s[:n]` (a slice of code points). -/
def pyTake (s : String) (n : Nat) : String := String.mk (s.data.take n)

/-- Python `s[n:]` (a slice of code points). -/
def pyDrop (s : String) (n : Nat) : String := String.mk (s.data.drop n)

/-! ## Upstream response model -/

/-- One asset entry of the `/simple/price` response: currency-keyed numeric
fields (`aud`, `aud_24h_change`, ...); a stored `none` is a JSON `null`. -/
abbrev CoinData := List (String × Option ℚ)

/-- The parsed JSON body: asset identifier to per-asset entry. -/
abbrev ApiResponse := List (String × CoinData)

/-- Python `d.get(k)`: `None` both when the key is missing and when the stored
value is `null`. -/
def pyGet (d : CoinData) (k : String) : Option ℚ :=
  (d.lookup k).join

/-! ## Coordinator: configuration and trading-pair derivation -/

/-- The `trading_pairs` value read from `entry.data`: the stored value may be a
single string, a list of strings, or absent. -/
inductive TradingPairsConf where
  | str (s : String)
  | list (l : List String)
  | missing
deriving DecidableEq

/-- `self.entry.data.get(CONF_TRADING_PAIRS, ["BTCAUD"])` followed by the
`isinstance(trading_pairs, str)` wrap of `_async_update_data`. -/
def normalizePairs : TradingPairsConf → List String
  | .str s => [s]
  | .list l => l
  | .missing => ["BTCAUD"]

/-- First request-building loop: `coin_id = pair[:3].lower()`. -/
def coinIdReq (pair : String) : String := pyLower (pyTake pair 3)

/-- First request-building loop: `currency = pair[3:].lower()`. -/
def currencyReq (pair : String) : String := pyLower (pyDrop pair 3)

/-- The `coin_ids` list of the request loop: one append per pair, no
deduplication. -/
def deriveCoinIds (pairs : List String) : List String :=
  pairs.foldl (fun acc pair => acc ++ [coinIdReq pair]) []

/-- The `currencies` list of the request loop: appended only under
`if currency not in currencies`. -/
def deriveCurrencies (pairs : List String) : List String :=
  pairs.foldl
    (fun acc pair =>
      if acc.contains (currencyReq pair) then acc else acc ++ [currencyReq pair])
    []

/-! ## Coordinator: cycle errors and request preparation -/

/-- The `UpdateFailed` causes raised by `_async_update_data`. -/
inductive UpdateError where
  /-- `UpdateFailed("No trading pairs configured")`. -/
  | noPairs
  /-- `UpdateFailed("No valid trading pairs configured")`. -/
  | noValidPairs
  /-- `UpdateFailed(f"API request failed with status {...}")`. -/
  | httpStatus (code : Nat)
  /-- `UpdateFailed` from the JSON-parsing `except` arms. -/
  | invalidJson
deriving DecidableEq

/-- Everything `_async_update_data` does before the HTTP GET is issued:
normalize the configured pairs, fail with `noPairs` on an empty list, derive
the `ids` and `vs_currencies` parameter lists, fail with `noValidPairs` if
either is empty. An `Except.ok` result is exactly the query-parameter pair of
the one request of the cycle; on `Except.error` no request is issued. -/
def prepareRequest (conf : TradingPairsConf) : Except UpdateError (List String × List String) :=
  let pairs := normalizePairs conf
  if pairs.isEmpty then Except.error UpdateError.noPairs
  else
    let ids := deriveCoinIds pairs
    let curs := deriveCurrencies pairs
    if ids.isEmpty || curs.isEmpty then Except.error UpdateError.noValidPairs
    else Except.ok (ids, curs)

/-- The upstream HTTP response to the one GET of a cycle: a status code and a
body, where `none` stands for a body that fails JSON parsing (wrong
content-type or malformed JSON). -/
inductive HttpResponse where
  | resp (status : Nat) (body : Option ApiResponse)
deriving DecidableEq

/-! ## Coordinator: response processing -/

/-- One `processed_data[pair]` record: the fields stored by the processing
loop of `_async_update_data`. `price` is the raw `coin_data[currency]` value
(possibly JSON `null`); the three auxiliary fields come from `coin_data.get`. -/
structure PriceRecord where
  price : Option ℚ
  coin_id : String
  currency : String
  change_24h : Option ℚ
  volume_24h : Option ℚ
  market_cap : Option ℚ
deriving DecidableEq

/-- The coordinator snapshot: the `processed_data` dict, trading-pair key to
record, in insertion order. -/
abbrev Snapshot := List (String × PriceRecord)

/-- Python dict assignment `d[k] = v` on the association-list model: replace
in place when the key exists, else append. -/
def dictInsert (d : Snapshot) (k : String) (v : PriceRecord) : Snapshot :=
  if (d.lookup k).isSome then
    d.map (fun kv => if kv.1 = k then (k, v) else kv)
  else d ++ [(k, v)]

/-- Processing loop: `coin_id = pair[:3].upper().lower()`. -/
def coinIdProc (pair : String) : String := pyLower (pyUpper (pyTake pair 3))

/-- Processing loop: the lookup key `currency = pair[3:].upper().lower()`. -/
def currencyKeyProc (pair : String) : String := pyLower (pyUpper (pyDrop pair 3))

/-- Processing loop: the stored `"currency": currency_symbol` value, which is
`pair[3:].upper()`. -/
def currencyLabel (pair : String) : String := pyUpper (pyDrop pair 3)

/-- One iteration of the processing loop of `_async_update_data`: look the
pair up in the response (`if coin_id in data` / `if currency in coin_data`)
and either store a record or leave `processed_data` unchanged. -/
def processPair (data : ApiResponse) (acc : Snapshot) (pair : String) : Snapshot :=
  match data.lookup (coinIdProc pair) with
  | none => acc
  | some coinData =>
    match coinData.lookup (currencyKeyProc pair) with
    | none => acc
    | some priceVal =>
      dictInsert acc pair
        { price := priceVal
          coin_id := coinIdProc pair
          currency := currencyLabel pair
          change_24h := pyGet coinData (currencyKeyProc pair ++ "_24h_change")
          volume_24h := pyGet coinData (currencyKeyProc pair ++ "_24h_vol")
          market_cap := pyGet coinData (currencyKeyProc pair ++ "_market_cap") }

/-- The full processing loop: fold `processPair` over the configured pairs
starting from the empty `processed_data` dict. -/
def processResponse (pairs : List String) (data : ApiResponse) : Snapshot :=
  pairs.foldl (processPair data) []

/-- One fetch cycle of `_async_update_data`, as a function of the stored
configuration and the upstream response: request preparation, the status-code
check (`response.status != 200`), the JSON-parse check, then the processing
loop. Total: every failure is a returned `UpdateError` value, never an
uncaught fault. -/
def runCycle (conf : TradingPairsConf) (resp : HttpResponse) : Except UpdateError Snapshot :=
  match prepareRequest conf with
  | Except.error e => Except.error e
  | Except.ok _ =>
    match resp with
    | HttpResponse.resp status body =>
      if status ≠ 200 then Except.error (UpdateError.httpStatus status)
      else
        match body with
        | none => Except.error UpdateError.invalidJson
        | some data => Except.ok (processResponse (normalizePairs conf) data)

/-- The host `DataUpdateCoordinator` semantics around `_async_update_data`
(spec: the snapshot is replaced wholesale on success and retained unchanged
across a failed cycle): `st` is `coordinator.data`, `none` before any
successful refresh. -/
def applyCycle (st : Option Snapshot) (conf : TradingPairsConf) (resp : HttpResponse) :
    Option Snapshot :=
  match runCycle conf resp with
  | Except.ok snap => some snap
  | Except.error _ => st

/-! ## Sensor façade (`sensor.py`)

The sensor holds a trading-pair key and reads `coordinator.data` on each
access. Its three accessors are total functions of the snapshot and the key:
none of them can raise. -/

/-- Attribute values of the `extra_state_attributes` dict: strings
(`coin_id`, `currency`), numbers, and Python `None` (the `last_updated`
fallback). -/
inductive AttrVal where
  | str (s : String)
  | num (q : ℚ)
  | null
deriving DecidableEq

/-- Python truthiness of the optional numeric fields as used by the walrus
conditions `if change_24h := data.get("change_24h")`: `None`, `0` and `0.0`
are falsy. -/
def truthy : Option ℚ → Bool
  | none => false
  | some q => q ≠ 0

/-- Python `round(x, 2)`. Ties are represented here as round-half-up
(Mathlib `round`); Python rounds the nearest binary double half-to-even, but
no theorem below depends on the value at a tie. -/
def round2 (q : ℚ) : ℚ := (round (q * 100) : ℚ) / 100

/-- `sensor.py` guard `if not self.coordinator.data or self._trading_pair not
in self.coordinator.data`, then `self.coordinator.data[self._trading_pair]`:
the record the three accessors read, or `none` when the guard fires
(`coordinator.data` is `None` before any success, falsy when empty). -/
def coordLookup (st : Option Snapshot) (pair : String) : Option PriceRecord :=
  match st with
  | none => none
  | some d => if d.isEmpty then none else d.lookup pair

/-- `CoinGeckoSensor.native_value`: `data.get("price")` behind the guard. -/
def native_value (st : Option Snapshot) (pair : String) : Option ℚ :=
  match coordLookup st pair with
  | none => none
  | some r => r.price

/-- `CoinGeckoSensor.native_unit_of_measurement`: `data.get("currency")`
behind the guard (the record always stores a currency string). -/
def native_unit_of_measurement (st : Option Snapshot) (pair : String) : Option String :=
  match coordLookup st pair with
  | none => none
  | some r => some r.currency

/-- The `last_updated` attribute value. The coordinator field read here,
`self.coordinator.last_update_success`, is inherited from the host framework
`DataUpdateCoordinator`, where it is the boolean success flag of the most
recent refresh; a Python `bool` has no `isoformat` method, so
`hasattr(self.coordinator.last_update_success, "isoformat")` is `False` and
the conditional expression always evaluates to `None`. -/
def lastUpdatedAttr : AttrVal := AttrVal.null

/-- The attributes dict built by `extra_state_attributes` once the guard has
passed: the three unconditional entries, then each optional field appended
only when its walrus condition is truthy. -/
def recordAttributes (r : PriceRecord) : List (String × AttrVal) :=
  [("coin_id", AttrVal.str r.coin_id),
   ("currency", AttrVal.str r.currency),
   ("last_updated", lastUpdatedAttr)]
  ++ (if truthy r.change_24h then
        [("change_24h", AttrVal.num (round2 (r.change_24h.getD 0)))] else [])
  ++ (if truthy r.volume_24h then
        [("volume_24h", AttrVal.num (r.volume_24h.getD 0))] else [])
  ++ (if truthy r.market_cap then
        [("market_cap", AttrVal.num (r.market_cap.getD 0))] else [])

/-- `CoinGeckoSensor.extra_state_attributes`: empty dict when the guard
fires, otherwise the attributes of the record of the trading pair. -/
def extra_state_attributes (st : Option Snapshot) (pair : String) : List (String × AttrVal) :=
  match coordLookup st pair with
  | none => []
  | some r => recordAttributes r

/-- The trading-pair key built by the sensor platform setup from the
`coin_id`/`currency` configuration shape:
`f"{coin_id.upper()}{currency.upper()}"` (defaults `"bitcoin"`, `"aud"`). -/
def sensorTradingPair (coin_id currency : String) : String :=
  pyUpper coin_id ++ pyUpper currency

/-! ## Derived notions and helper lemmas -/

/-- The key list of a snapshot (the keys of the `processed_data` dict). -/
def keysOf (d : Snapshot) : List String := d.map Prod.fst

/-- Whether a configured pair is present in the upstream response:
`coin_id in data` and `currency in data[coin_id]`, with the keys the
processing loop derives. -/
def pairPresent (data : ApiResponse) (pair : String) : Bool :=
  match data.lookup (coinIdProc pair) with
  | none => false
  | some coinData => (coinData.lookup (currencyKeyProc pair)).isSome

theorem lookup_isSome_iff {α : Type} (l : List (String × α)) (k : String) :
    (l.lookup k).isSome = true ↔ k ∈ l.map Prod.fst := by
  induction l with
  | nil => simp [List.lookup]
  | cons x t ih =>
    obtain ⟨a, b⟩ := x
    by_cases hk : k = a
    · subst hk; simp [List.lookup]
    · have hbeq : (k == a) = false := beq_eq_false_iff_ne.mpr hk
      simp [List.lookup, hbeq, hk, ih]

theorem lookup_eq_none_of_not_mem {α : Type} (l : List (String × α)) (k : String)
    (h : k ∉ l.map Prod.fst) : l.lookup k = none := by
  cases hl : l.lookup k with
  | none => rfl
  | some v => exact absurd ((lookup_isSome_iff l k).mp (by simp [hl])) h

theorem mem_keysOf_dictInsert (d : Snapshot) (k : String) (v : PriceRecord) (p : String) :
    p ∈ keysOf (dictInsert d k v) ↔ p ∈ keysOf d ∨ p = k := by
  unfold keysOf dictInsert
  by_cases hs : (d.lookup k).isSome = true
  · have hk : k ∈ d.map Prod.fst := (lookup_isSome_iff d k).mp hs
    have hmap : (d.map (fun kv => if kv.1 = k then (k, v) else kv)).map Prod.fst
        = d.map Prod.fst := by
      rw [List.map_map]
      apply List.map_congr_left
      intro kv _
      by_cases h1 : kv.1 = k
      · simp [h1]
      · simp [h1]
    rw [if_pos hs, hmap]
    constructor
    · exact Or.inl
    · rintro (h | rfl)
      · exact h
      · exact hk
  · rw [if_neg hs]
    simp

theorem mem_keysOf_processPair (data : ApiResponse) (acc : Snapshot) (pair p : String) :
    p ∈ keysOf (processPair data acc pair) ↔
      p ∈ keysOf acc ∨ (p = pair ∧ pairPresent data pair = true) := by
  unfold processPair pairPresent
  cases h1 : data.lookup (coinIdProc pair) with
  | none => simp
  | some coinData =>
    cases h2 : coinData.lookup (currencyKeyProc pair) with
    | none => simp [h2]
    | some priceVal => simp [h2, mem_keysOf_dictInsert]

theorem mem_keysOf_processFold (data : ApiResponse) (pairs : List String) :
    ∀ (acc : Snapshot) (p : String),
      p ∈ keysOf (pairs.foldl (processPair data) acc) ↔
        p ∈ keysOf acc ∨ (p ∈ pairs ∧ pairPresent data p = true) := by
  induction pairs with
  | nil =>
    intro acc p
    simp
  | cons q qs ih =>
    intro acc p
    rw [List.foldl_cons, ih, mem_keysOf_processPair]
    constructor
    · rintro ((h | ⟨rfl, hq⟩) | ⟨hq, hp⟩)
      · exact Or.inl h
      · exact Or.inr ⟨List.mem_cons_self _ _, hq⟩
      · exact Or.inr ⟨List.mem_cons_of_mem _ hq, hp⟩
    · rintro (h | ⟨hq, hp⟩)
      · exact Or.inl (Or.inl h)
      · rcases List.mem_cons.mp hq with rfl | hq2
        · exact Or.inl (Or.inr ⟨rfl, hp⟩)
        · exact Or.inr ⟨hq2, hp⟩

theorem mem_keysOf_processResponse (data : ApiResponse) (pairs : List String) (p : String) :
    p ∈ keysOf (processResponse pairs data) ↔ p ∈ pairs ∧ pairPresent data p = true := by
  unfold processResponse
  rw [mem_keysOf_processFold]
  simp [keysOf]

theorem deriveCurrencies_fold_nodup (l : List String) :
    ∀ acc : List String, acc.Nodup →
      (l.foldl
        (fun acc pair =>
          if acc.contains (currencyReq pair) then acc else acc ++ [currencyReq pair])
        acc).Nodup := by
  induction l with
  | nil => intro acc h; exact h
  | cons q qs ih =>
    intro acc h
    rw [List.foldl_cons]
    apply ih
    by_cases hc : acc.contains (currencyReq q)
    · have hm : currencyReq q ∈ acc := by simpa using hc
      simp [hm, h]
    · have hnm : currencyReq q ∉ acc := by simpa using hc
      simp [hnm, List.nodup_append, h]

theorem runCycle_ok_eq (conf : TradingPairsConf) (status : Nat) (data : ApiResponse)
    (snap : Snapshot)
    (h : runCycle conf (HttpResponse.resp status (some data)) = Except.ok snap) :
    snap = processResponse (normalizePairs conf) data := by
  unfold runCycle at h
  cases hp : prepareRequest conf with
  | error e => rw [hp] at h; exact absurd h (by simp)
  | ok v =>
    rw [hp] at h
    dsimp only at h
    by_cases hs : status ≠ 200
    · rw [if_pos hs] at h; exact absurd h (by simp)
    · rw [if_neg hs] at h
      exact (Except.ok.inj h).symm

/-! ## Concrete inputs used by the claim theorems -/

/-- The upstream response of the bitcoin/aud scenario:
`{"bitcoin": {"aud": 100000.0, "aud_24h_change": 2.345}}`. -/
def bitcoinAudResponse : ApiResponse :=
  [("bitcoin", [("aud", some (100000 : ℚ)), ("aud_24h_change", some (2.345 : ℚ))])]

/-- An upstream response whose 24h-change field is exactly `0`. -/
def zeroChangeResponse : ApiResponse :=
  [("btc", [("aud", some (5 : ℚ)), ("aud_24h_change", some 0)])]

/-- The snapshot a successful cycle builds from `zeroChangeResponse` for the
configured pair `"BTCAUD"`. -/
def zeroChangeSnapshot : Snapshot := processResponse ["BTCAUD"] zeroChangeResponse

/-- A minimal upstream response holding only a btc/aud price. -/
def btcAudPriceResponse : ApiResponse := [("btc", [("aud", some (5 : ℚ))])]

/-! ## The claims -/

/-- Claim C1: every name that the coordinator module and the config-flow
module import from the constants module is defined there (in particular
CONF_TRADING_PAIRS, COIN_MAPPINGS and SUPPORTED_CURRENCIES), so all four
modules load without an import error. Refuted by evaluation: the three
names are imported by `__init__.py` (and CONF_TRADING_PAIRS also by
`config_flow.py`) but are not among the assignments of `const.py`, so
loading either module raises; only the `sensor.py` list resolves. -/
theorem c1_const_import_names_undefined :
    ("CONF_TRADING_PAIRS" ∈ initConstImportNames ∧
      "CONF_TRADING_PAIRS" ∉ constDefinedNames) ∧
    ("COIN_MAPPINGS" ∈ initConstImportNames ∧
      "COIN_MAPPINGS" ∉ constDefinedNames) ∧
    ("SUPPORTED_CURRENCIES" ∈ initConstImportNames ∧
      "SUPPORTED_CURRENCIES" ∉ constDefinedNames) ∧
    ("CONF_TRADING_PAIRS" ∈ configFlowConstImportNames) ∧
    (∀ n ∈ sensorConstImportNames, n ∈ constDefinedNames) := by
  decide

/-- Claim C2: with configured pair bitcoin/aud and upstream response
`{"bitcoin": {"aud": 100000.0, "aud_24h_change": 2.345}}`, the record should
carry price 100000.0 and a rounded change attribute. Refuted by evaluation:
the coordinator derives the asset key from the first three characters of the
pair string lowercased, which is `"bit"` for the sensor key `"BITCOINAUD"`
(and `"btc"` for the default pair), never `"bitcoin"`, so the cycle succeeds
with an empty snapshot, the sensor value is `None` and the attributes are
empty. -/
theorem c2_bitcoin_aud_record_never_built :
    applyCycle none (TradingPairsConf.list [sensorTradingPair "bitcoin" "aud"])
        (HttpResponse.resp 200 (some bitcoinAudResponse)) = some [] ∧
    applyCycle none TradingPairsConf.missing
        (HttpResponse.resp 200 (some bitcoinAudResponse)) = some [] ∧
    native_value
        (applyCycle none (TradingPairsConf.list [sensorTradingPair "bitcoin" "aud"])
          (HttpResponse.resp 200 (some bitcoinAudResponse)))
        (sensorTradingPair "bitcoin" "aud") = none ∧
    extra_state_attributes
        (applyCycle none (TradingPairsConf.list [sensorTradingPair "bitcoin" "aud"])
          (HttpResponse.resp 200 (some bitcoinAudResponse)))
        (sensorTradingPair "bitcoin" "aud") = [] := by
  refine ⟨by decide, by decide, by decide, by decide⟩

/-- Claim C3: an optional field whose upstream value is exactly 0 is still
surfaced in the attributes, while `None` and a missing key are both omitted.
The second half holds (shown by the last conjunct: a JSON `null` change field
and an absent change field build identical snapshots), but the first is
refuted by evaluation: the record stores `change_24h = 0`, yet the walrus
truthiness test of `extra_state_attributes` drops the zero, so the attribute
is absent. -/
theorem c3_explicit_zero_change_omitted :
    (zeroChangeSnapshot.lookup "BTCAUD").map PriceRecord.change_24h = some (some 0) ∧
    (extra_state_attributes (some zeroChangeSnapshot) "BTCAUD").lookup "change_24h" = none ∧
    processResponse ["BTCAUD"] [("btc", [("aud", some (5 : ℚ)), ("aud_24h_change", none)])] =
      processResponse ["BTCAUD"] [("btc", [("aud", some (5 : ℚ))])] := by
  refine ⟨by decide, by decide, by decide⟩

/-- Claim C4: for a pair present in the snapshot the attributes contain the
coin identifier, the currency code, and an ISO-formatted timestamp of the
last successful fetch, the timestamp attribute being absent before any
success. Partially refuted by evaluation: after a successful cycle the
attributes do contain the coin identifier and the currency code, but the
`last_updated` entry is the constant `None` (the code reads the boolean
`last_update_success` flag, which has no `isoformat`), never an ISO
timestamp. -/
theorem c4_last_updated_never_iso :
    applyCycle none (TradingPairsConf.list ["BTCAUD"])
        (HttpResponse.resp 200 (some btcAudPriceResponse))
      = some [("BTCAUD",
          { price := some 5, coin_id := "btc", currency := "AUD",
            change_24h := none, volume_24h := none, market_cap := none })] ∧
    extra_state_attributes
        (applyCycle none (TradingPairsConf.list ["BTCAUD"])
          (HttpResponse.resp 200 (some btcAudPriceResponse)))
        "BTCAUD"
      = [("coin_id", AttrVal.str "btc"), ("currency", AttrVal.str "AUD"),
         ("last_updated", AttrVal.null)] := by
  refine ⟨by decide, by decide⟩

/-- Claim C5: a fetch cycle that receives a non-2xx status or an unparsable
body raises `UpdateFailed` reporting the cause, leaves the previous snapshot
unchanged, and lets no exception escape uncaught (`runCycle` is total and
every failure is a returned `UpdateError` value). -/
theorem c5_failed_cycle_keeps_snapshot (st : Option Snapshot) (conf : TradingPairsConf)
    (status : Nat) (body : Option ApiResponse)
    (h : status ≠ 200 ∨ body = none) :
    (∃ e, runCycle conf (HttpResponse.resp status body) = Except.error e) ∧
    applyCycle st conf (HttpResponse.resp status body) = st := by
  have herr : ∃ e, runCycle conf (HttpResponse.resp status body) = Except.error e := by
    unfold runCycle
    cases hp : prepareRequest conf with
    | error e => exact ⟨e, rfl⟩
    | ok v =>
      dsimp only
      by_cases hs : status ≠ 200
      · rw [if_pos hs]
        exact ⟨UpdateError.httpStatus status, rfl⟩
      · rw [if_neg hs]
        have hb : body = none := by
          rcases h with h | h
          · exact absurd h hs
          · exact h
        subst hb
        exact ⟨UpdateError.invalidJson, rfl⟩
  obtain ⟨e, he⟩ := herr
  refine ⟨⟨e, he⟩, ?_⟩
  unfold applyCycle
  rw [he]

/-- Witness for C5 at a concrete input: a 500 response against a non-empty
previous snapshot fails the cycle and keeps the snapshot. -/
theorem c5_failed_cycle_keeps_snapshot_witness :
    (∃ e, runCycle TradingPairsConf.missing (HttpResponse.resp 500 (some []))
        = Except.error e) ∧
    applyCycle (some zeroChangeSnapshot) TradingPairsConf.missing
        (HttpResponse.resp 500 (some [])) = some zeroChangeSnapshot :=
  c5_failed_cycle_keeps_snapshot (some zeroChangeSnapshot) TradingPairsConf.missing
    500 (some []) (Or.inl (by decide))

/-- Claim C6: a configuration whose trading-pair list is empty after
derivation fails the cycle with the configuration error before any network
call: `prepareRequest` already errors, and the cycle result is that error
for every conceivable response, so no request is issued. -/
theorem c6_empty_pairs_fail_before_request (conf : TradingPairsConf)
    (h : normalizePairs conf = []) :
    prepareRequest conf = Except.error UpdateError.noPairs ∧
    ∀ resp, runCycle conf resp = Except.error UpdateError.noPairs := by
  have hp : prepareRequest conf = Except.error UpdateError.noPairs := by
    simp [prepareRequest, h]
  refine ⟨hp, fun resp => ?_⟩
  unfold runCycle
  rw [hp]

/-- Witness for C6 at a concrete input: the empty configured list. -/
theorem c6_empty_pairs_fail_before_request_witness :
    prepareRequest (TradingPairsConf.list []) = Except.error UpdateError.noPairs ∧
    runCycle (TradingPairsConf.list []) (HttpResponse.resp 200 (some []))
      = Except.error UpdateError.noPairs :=
  ⟨(c6_empty_pairs_fail_before_request (TradingPairsConf.list []) rfl).1,
   (c6_empty_pairs_fail_before_request (TradingPairsConf.list []) rfl).2
     (HttpResponse.resp 200 (some []))⟩

/-- Claim C7: a successful fetch cycle produces a snapshot whose keys are
exactly the configured pairs for which both the derived asset identifier and
the currency key are present in the response; absent pairs are omitted
without failing the cycle (the cycle is `Except.ok` by hypothesis). -/
theorem c7_snapshot_keys_exact (conf : TradingPairsConf) (data : ApiResponse)
    (snap : Snapshot)
    (h : runCycle conf (HttpResponse.resp 200 (some data)) = Except.ok snap)
    (p : String) :
    p ∈ keysOf snap ↔ p ∈ normalizePairs conf ∧ pairPresent data p = true := by
  rw [runCycle_ok_eq conf 200 data snap h]
  exact mem_keysOf_processResponse data (normalizePairs conf) p

/-- Witness for C7 at a concrete input: two configured pairs, one present in
the response and one absent. -/
theorem c7_snapshot_keys_exact_witness :
    "BTCAUD" ∈ keysOf (processResponse ["BTCAUD", "XRPUSD"] btcAudPriceResponse) ↔
      "BTCAUD" ∈ normalizePairs (TradingPairsConf.list ["BTCAUD", "XRPUSD"]) ∧
        pairPresent btcAudPriceResponse "BTCAUD" = true :=
  c7_snapshot_keys_exact (TradingPairsConf.list ["BTCAUD", "XRPUSD"]) btcAudPriceResponse
    (processResponse ["BTCAUD", "XRPUSD"] btcAudPriceResponse) rfl "BTCAUD"

/-- Claim C8: parsing `"BTCAUD"` yields asset identifier `"btc"` and
currency `"aud"`; parsing the two-element list yields two pairs; and the
currency list sent to the API never holds a currency twice (shown both on
the repeated-currency example and by the general no-duplicates lemma). -/
theorem c8_pair_parsing_and_currency_dedup :
    deriveCoinIds ["BTCAUD"] = ["btc"] ∧
    deriveCurrencies ["BTCAUD"] = ["aud"] ∧
    deriveCoinIds ["BTCAUD", "ETHUSD"] = ["btc", "eth"] ∧
    deriveCurrencies ["BTCAUD", "ETHUSD"] = ["aud", "usd"] ∧
    deriveCurrencies ["BTCAUD", "ETHAUD"] = ["aud"] ∧
    ∀ pairs : List String, (deriveCurrencies pairs).Nodup := by
  refine ⟨by decide, by decide, by decide, by decide, by decide, fun pairs => ?_⟩
  exact deriveCurrencies_fold_nodup pairs [] List.nodup_nil

/-- Claim C9: two consecutive successful cycles on identical upstream data
yield identical snapshots: the first success replaces the snapshot by the
processed data regardless of the previous state, and running the same cycle
again leaves it unchanged, with no accumulation. -/
theorem c9_second_cycle_same_snapshot (st : Option Snapshot) (conf : TradingPairsConf)
    (resp : HttpResponse) (snap : Snapshot)
    (h : runCycle conf resp = Except.ok snap) :
    applyCycle st conf resp = some snap ∧
    applyCycle (applyCycle st conf resp) conf resp = applyCycle st conf resp := by
  constructor
  · unfold applyCycle
    rw [h]
  · unfold applyCycle
    rw [h]

/-- Witness for C9 at a concrete input. -/
theorem c9_second_cycle_same_snapshot_witness :
    applyCycle none (TradingPairsConf.list ["BTCAUD"])
        (HttpResponse.resp 200 (some btcAudPriceResponse))
      = some (processResponse ["BTCAUD"] btcAudPriceResponse) ∧
    applyCycle
        (applyCycle none (TradingPairsConf.list ["BTCAUD"])
          (HttpResponse.resp 200 (some btcAudPriceResponse)))
        (TradingPairsConf.list ["BTCAUD"])
        (HttpResponse.resp 200 (some btcAudPriceResponse))
      = applyCycle none (TradingPairsConf.list ["BTCAUD"])
          (HttpResponse.resp 200 (some btcAudPriceResponse)) :=
  c9_second_cycle_same_snapshot none (TradingPairsConf.list ["BTCAUD"])
    (HttpResponse.resp 200 (some btcAudPriceResponse))
    (processResponse ["BTCAUD"] btcAudPriceResponse) rfl

/-- Claim C10: for a sensor whose trading pair is absent from the current
snapshot (including the `None` and empty snapshots), `native_value`,
`native_unit_of_measurement` and `extra_state_attributes` return `None`,
`None` and the empty mapping; all three are total functions, so none can
raise. -/
theorem c10_absent_pair_accessors (st : Option Snapshot) (pair : String)
    (h : ∀ d, st = some d → pair ∉ keysOf d) :
    native_value st pair = none ∧
    native_unit_of_measurement st pair = none ∧
    extra_state_attributes st pair = [] := by
  have hc : coordLookup st pair = none := by
    cases st with
    | none => rfl
    | some d =>
      unfold coordLookup
      dsimp only
      by_cases he : d.isEmpty
      · rw [if_pos he]
      · rw [if_neg he]
        exact lookup_eq_none_of_not_mem d pair (h d rfl)
  refine ⟨?_, ?_, ?_⟩ <;>
    simp [native_value, native_unit_of_measurement, extra_state_attributes, hc]

/-- Witness for C10 at a concrete input: the pre-first-success state. -/
theorem c10_absent_pair_accessors_witness :
    native_value none "BTCAUD" = none ∧
    native_unit_of_measurement none "BTCAUD" = none ∧
    extra_state_attributes none "BTCAUD" = [] :=
  c10_absent_pair_accessors none "BTCAUD" (fun _ hd => Option.noConfusion hd)

end CoinGecko
